import Mathlib

/-!
Shallow embedding of `crates/sshx/src/terminal.rs` (the sshx PTY terminal
driver) and proofs of the specification's claims about it.

The driver creates a kernel PTY pair, forks a child that attaches the slave
side as its controlling terminal and execs a shell, and exposes the master
side as two duplicated file handles plus window-size (geometry) control.
OS-level behavior (fork outcome, exec resolution, login_tty outcome) is
passed in explicitly as an `OsBehavior` parameter; kernel state (fd
allocation, PTY window sizes) and the child's process state (open fds,
environment) are explicit state records.
-/

namespace Sshx

/-- Errno values that the embedded code can observe. -/
inductive Errno where
  | ENOENT
  | ESRCH
  | EBADF
  | EIO
  | EAGAIN
deriving DecidableEq, Repr

/-- POSIX signals used by the driver (`nix::sys::signal::Signal`). -/
inductive Signal where
  | SIGKILL
  | SIGTERM
deriving DecidableEq, Repr

/-- The `Winsize` struct of `nix::pty` (C `struct winsize`), four u16 fields
modelled as naturals reduced mod 2^16 at the construction boundary. -/
structure Winsize where
  ws_row : Nat
  ws_col : Nat
  ws_xpixel : Nat
  ws_ypixel : Nat
deriving DecidableEq, Repr

/-- `make_winsize(rows, cols)` from terminal.rs: builds a `Winsize` with the
given rows/cols and pixel dimensions fixed at 0. The Rust arguments are u16,
so the embedding truncates mod 65536. -/
def make_winsize (rows cols : Nat) : Winsize :=
  { ws_row := rows % 65536
    ws_col := cols % 65536
    ws_xpixel := 0
    ws_ypixel := 0 }

/-- A `tokio::fs::File` wrapping one OS file descriptor: `handle` is the
descriptor number (distinct per duplicate), `endpoint` identifies the
underlying kernel object (the PTY master) the descriptor refers to. -/
structure File where
  handle : Nat
  endpoint : Nat
deriving DecidableEq, Repr

/-- The `Terminal` struct: child pid plus the two master-side file halves. -/
structure Terminal where
  child : Nat
  master_read : File
  master_write : File
deriving DecidableEq, Repr

/-- Kernel-side state visible to the driver: the next free file descriptor,
the next fresh PTY identity, and each PTY's current window size
(`none` for identities that name no PTY). -/
structure Kernel where
  nextFd : Nat
  nextPty : Nat
  winsizes : Nat → Option Winsize

/-- Process state of the forked child between fork and exec: its open file
descriptors, its controlling terminal, and its environment. -/
structure ChildState where
  fds : List Nat
  ctty : Option Nat
  env : String → Option String

/-- OS outcomes that the source code branches on, passed in explicitly:
whether `openpty` succeeds, what `fork` returns in the parent, whether
`File::try_clone` succeeds, whether `login_tty` succeeds in the child, and
whether `execvp` resolves a given program. -/
structure OsBehavior where
  openptyResult : Option Errno
  forkResult : Except Errno Nat
  tryCloneResult : Option Errno
  loginTtyResult : Option Errno
  execResult : String → Option Errno

/-- Errors surfaced by `Terminal::new` / `fork_child` (the `anyhow::Result`
error side): a `NulError` from `CString::new`, or an OS errno. -/
inductive OpenError where
  | nulError
  | errno (e : Errno)
deriving DecidableEq, Repr

/-- `env::var(key)` / `unwrap_or_else` composition in `get_default_shell`:
returns `$SHELL` when set, else the fixed path "/bin/bash". -/
def get_default_shell (env : String → Option String) : String :=
  match env "SHELL" with
  | some s => s
  | none => "/bin/bash"

/-- True iff the string contains a NUL character, the exact condition under
which `CString::new` on it returns a `NulError`. -/
def containsNul (s : String) : Bool :=
  s.toList.any (fun c => c = Char.ofNat 0)

/-- Adds a file descriptor to the child's table if not already present. -/
def insertFd (fd : Nat) (fds : List Nat) : List Nat :=
  if fd ∈ fds then fds else fd :: fds

/-- `login_tty(slave)`: makes the slave descriptor the controlling terminal,
duplicates it onto descriptors 0, 1, 2, and closes the original slave
descriptor when it is greater than 2. -/
def login_tty (slave : Nat) (st : ChildState) : ChildState :=
  let fds1 := insertFd 0 (insertFd 1 (insertFd 2 st.fds))
  let fds2 := if slave > 2 then fds1.filter (fun fd => fd ≠ slave) else fds1
  { st with fds := fds2, ctty := some slave }

/-- `CloseFdsBuilder::new().closefrom(n)`: closes every descriptor whose
number is at least `n`. -/
def closefrom (n : Nat) (st : ChildState) : ChildState :=
  { st with fds := st.fds.filter (fun fd => fd < n) }

/-- `env::set_var(key, val)` in the child process. -/
def set_var (st : ChildState) (key val : String) : ChildState :=
  { st with env := fun k => if k = key then some val else st.env k }

/-- `env::remove_var(key)` in the child process. -/
def remove_var (st : ChildState) (key : String) : ChildState :=
  { st with env := fun k => if k = key then none else st.env k }

/-- Result of `Terminal::execv_child` (Rust type `Result<Infallible, Errno>`):
either the process image was replaced by `execvp(prog, args)` in child state
`st` (the case in which the Rust function never returns), or some OS call
failed with an errno. -/
inductive ExecvChildResult where
  | execed (prog : String) (args : List String) (st : ChildState)
  | errored (e : Errno)

/-- `execvp(prog, args)`: replaces the process image when the OS resolves
`prog`, otherwise fails with the OS-reported errno. -/
def execvp (execResult : String → Option Errno) (prog : String)
    (args : List String) (st : ChildState) : ExecvChildResult :=
  match execResult prog with
  | none => .execed prog args st
  | some e => .errored e

/-- `Terminal::execv_child(shell, slave_port)`: `login_tty`, close all
descriptors from 3 up, set the fixed terminal environment variables, remove
`TERM_PROGRAM_VERSION`, then `execvp(shell, &[shell])`. -/
def execv_child (os : OsBehavior) (shell : String) (slave_port : Nat)
    (st : ChildState) : ExecvChildResult :=
  match os.loginTtyResult with
  | some e => .errored e
  | none =>
    let st1 := login_tty slave_port st
    let st2 := closefrom 3 st1
    let st3 := set_var st2 "TERM" "xterm-256color"
    let st4 := set_var st3 "COLORTERM" "truecolor"
    let st5 := set_var st4 "TERM_PROGRAM" "sshx"
    let st6 := remove_var st5 "TERM_PROGRAM_VERSION"
    execvp os.execResult shell [shell] st6

/-- What finally happens in the child branch of `fork_child`: either the
process image is replaced, or the child process exits with a status code. -/
inductive ChildOutcome where
  | replaced (prog : String) (args : List String) (st : ChildState)
  | exited (code : Nat)

/-- The `ForkResult::Child` arm of `fork_child`: on `Ok(infallible)` the
match is unreachable (the image was replaced), on `Err(_)` the child calls
`std::process::exit(1)`. -/
def childBranch (os : OsBehavior) (shell : String) (slave_port : Nat)
    (st : ChildState) : ChildOutcome :=
  match execv_child os shell slave_port st with
  | .execed prog args st => .replaced prog args st
  | .errored _ => .exited 1

/-- The parent-side view of `Terminal::fork_child(shell, slave_port)`:
`CString::new(shell)?` fails on an interior NUL before any fork; otherwise
the fork either fails (no child created) or yields the child's pid. The
boolean records whether a child process was created. -/
def fork_child (os : OsBehavior) (shell : String) (slave_port : Nat) :
    Except OpenError Nat × Bool :=
  if containsNul shell then (.error .nulError, false)
  else
    match os.forkResult with
    | .error e => (.error (.errno e), false)
    | .ok child => (.ok child, true)

/-- `pty::openpty(None, None)`: allocates a fresh PTY whose window size the
kernel zero-initializes, returning (master fd, slave fd, pty id, kernel). -/
def openpty (os : OsBehavior) (k : Kernel) :
    Except Errno (Nat × Nat × Nat × Kernel) :=
  match os.openptyResult with
  | some e => .error e
  | none =>
    let ptyId := k.nextPty
    let master := k.nextFd
    let slave := k.nextFd + 1
    .ok (master, slave, ptyId,
      { nextFd := k.nextFd + 2
        nextPty := k.nextPty + 1
        winsizes := fun p => if p = ptyId then some ⟨0, 0, 0, 0⟩
                             else k.winsizes p })

/-- `Terminal::new(shell)`: openpty, fork the child, wrap the master fd as
`master_read`, and `try_clone` it (a `dup`, allocating the next free fd) as
`master_write`. The boolean records whether a child process was created. -/
def Terminal.new (os : OsBehavior) (k : Kernel) (shell : String) :
    Except OpenError (Terminal × Kernel) × Bool :=
  match openpty os k with
  | .error e => (.error (.errno e), false)
  | .ok (master, slave, ptyId, k1) =>
    match fork_child os shell slave with
    | (.error e, created) => (.error e, created)
    | (.ok child, created) =>
      let master_read : File := { handle := master, endpoint := ptyId }
      match os.tryCloneResult with
      | some e => (.error (.errno e), created)
      | none =>
        let master_write : File := { handle := k1.nextFd, endpoint := ptyId }
        let k2 := { k1 with nextFd := k1.nextFd + 1 }
        (.ok ({ child := child,
                master_read := master_read,
                master_write := master_write }, k2), created)

/-- The `TIOCSWINSZ` ioctl on a PTY master endpoint: fails with `EBADF` when
the endpoint names no PTY, else stores the window size. -/
def ioctlSetWinsize (k : Kernel) (pty : Nat) (w : Winsize) :
    Except Errno Kernel :=
  match k.winsizes pty with
  | none => .error .EBADF
  | some _ =>
    .ok { k with winsizes := fun p => if p = pty then some w
                                      else k.winsizes p }

/-- The `TIOCGWINSZ` ioctl on a PTY master endpoint: fails with `EBADF` when
the endpoint names no PTY, else reads the current window size. -/
def ioctlGetWinsize (k : Kernel) (pty : Nat) : Except Errno Winsize :=
  match k.winsizes pty with
  | none => .error .EBADF
  | some w => .ok w

/-- `Terminal::set_winsize(rows, cols)`: writes `make_winsize(rows, cols)`
to the PTY referred to by `master_read`. -/
def Terminal.set_winsize (t : Terminal) (k : Kernel) (rows cols : Nat) :
    Except Errno Kernel :=
  ioctlSetWinsize k t.master_read.endpoint (make_winsize rows cols)

/-- `Terminal::get_winsize()`: reads the window size of the PTY referred to
by `master_read` and returns its `(ws_row, ws_col)` pair. -/
def Terminal.get_winsize (t : Terminal) (k : Kernel) :
    Except Errno (Nat × Nat) :=
  match ioctlGetWinsize k t.master_read.endpoint with
  | .error e => .error e
  | .ok w => .ok (w.ws_row, w.ws_col)

/-- The operations callable on a live `Terminal`. The poll operations of the
`AsyncRead` / `AsyncWrite` impls delegate to the stored file halves; like
`get_winsize` they take `&self` and move bytes, not descriptor bindings. -/
inductive TermOp where
  | setWinsize (rows cols : Nat)
  | getWinsize
  | pollRead
  | pollWrite
  | pollFlush
  | pollShutdown

/-- One operation applied to a terminal and the kernel. Every method takes
`&self`, so the `Terminal` value itself is never rebound; only the kernel
(window size, stream contents) changes. -/
def applyOp (op : TermOp) (tk : Terminal × Kernel) : Terminal × Kernel :=
  match op with
  | .setWinsize rows cols =>
    match tk.1.set_winsize tk.2 rows cols with
    | .ok k2 => (tk.1, k2)
    | .error _ => tk
  | _ => tk

/-- A sequence of operations over the terminal's lifetime. -/
def applyOps (ops : List TermOp) (tk : Terminal × Kernel) :
    Terminal × Kernel :=
  ops.foldl (fun tk op => applyOp op tk) tk

/-- The process table: which pids name a live process. -/
structure ProcTable where
  alive : Nat → Bool

/-- `nix::sys::signal::kill(pid, sig)`: attempts delivery of `sig` to `pid`;
fails with `ESRCH` when no such process exists. The list records the one
signal-delivery attempt made. -/
def kill (pt : ProcTable) (pid : Nat) (sig : Signal) :
    Except Errno Unit × List (Nat × Signal) :=
  if pt.alive pid then (.ok (), [(pid, sig)])
  else (.error .ESRCH, [(pid, sig)])

/-- The `PinnedDrop` impl for `Terminal`: sends SIGKILL to the stored child
pid and discards the result with `.ok()`. Returns the (always unit) drop
outcome together with the list of signal-delivery attempts it made. -/
def Terminal.drop (t : Terminal) (pt : ProcTable) :
    Unit × List (Nat × Signal) :=
  let (r, sent) := kill pt t.child Signal.SIGKILL
  match r with
  | .ok _ => ((), sent)
  | .error _ => ((), sent)

/-- Extracts the environment at the moment of exec, when the image was
replaced. -/
def ExecvChildResult.envVar (r : ExecvChildResult) (key : String) :
    Option (Option String) :=
  match r with
  | .execed _ _ st => some (st.env key)
  | .errored _ => none

/-- True iff the image was replaced while a descriptor numbered 3 or higher
was still open. -/
def ExecvChildResult.leaksFd (r : ExecvChildResult) : Bool :=
  match r with
  | .execed _ _ st => st.fds.any (fun fd => 3 ≤ fd)
  | .errored _ => false

/-- An OS in which every call succeeds and fork yields pid 1000. -/
def osOk : OsBehavior :=
  { openptyResult := none
    forkResult := .ok 1000
    tryCloneResult := none
    loginTtyResult := none
    execResult := fun _ => none }

/-- An OS in which setup succeeds but `execvp` fails with `ENOENT`. -/
def osExecFail : OsBehavior :=
  { openptyResult := none
    forkResult := .ok 1000
    tryCloneResult := none
    loginTtyResult := none
    execResult := fun _ => some .ENOENT }

/-- An initial kernel: fds 0, 1, 2 taken, no PTY allocated yet. -/
def kInit : Kernel := { nextFd := 3, nextPty := 0, winsizes := fun _ => none }

/-- A placeholder terminal value for impossible match arms. -/
def defaultTerminal : Terminal :=
  { child := 0, master_read := ⟨0, 0⟩, master_write := ⟨0, 0⟩ }

/-- The result of one concrete successful `Terminal::new` call. -/
def newOk : Except OpenError (Terminal × Kernel) × Bool :=
  Terminal.new osOk kInit "/bin/sh"

/-- The terminal produced by the concrete `Terminal::new` call. -/
def tOpened : Terminal :=
  match newOk.1 with
  | .ok (t, _) => t
  | .error _ => defaultTerminal

/-- The kernel state after the concrete `Terminal::new` call. -/
def kOpened : Kernel :=
  match newOk.1 with
  | .ok (_, k) => k
  | .error _ => kInit

/-- The kernel state after `set_winsize(120, 72)` on the opened terminal. -/
def kSet : Kernel :=
  match Terminal.set_winsize tOpened kOpened 120 72 with
  | .ok k => k
  | .error _ => kOpened

/-- A concrete pre-fork child state with extra fds and a dirty environment. -/
def stInit : ChildState :=
  { fds := [0, 1, 2, 5, 7]
    ctty := none
    env := fun k => if k = "TERM" then some "dumb"
                    else if k = "TERM_PROGRAM_VERSION" then some "9.9"
                    else none }

/-- An environment in which `$SHELL` is set. -/
def envZsh : String → Option String :=
  fun k => if k = "SHELL" then some "/bin/zsh" else none

/-- An environment in which `$SHELL` is unset. -/
def envEmpty : String → Option String := fun _ => none

/-- A process table in which no process is alive. -/
def ptDead : ProcTable := { alive := fun _ => false }

/-- A concrete terminal holding child pid 1000. -/
def tTerm : Terminal :=
  { child := 1000, master_read := ⟨3, 0⟩, master_write := ⟨5, 0⟩ }

/-- Shape of a successful `Terminal::new`: the read half is the master fd,
the write half is the fresh duplicate fd, both name the fresh PTY, and that
PTY's window size starts zeroed. -/
theorem terminal_new_ok_shape (os : OsBehavior) (k : Kernel) (shell : String)
    (t : Terminal) (k1 : Kernel)
    (h : (Terminal.new os k shell).1 = .ok (t, k1)) :
    t.master_read = ⟨k.nextFd, k.nextPty⟩ ∧
    t.master_write = ⟨k.nextFd + 2, k.nextPty⟩ ∧
    k1.winsizes k.nextPty = some ⟨0, 0, 0, 0⟩ := by
  unfold Terminal.new at h
  split at h
  · simp at h
  · rename_i master slave ptyId k2 heq
    split at h
    · simp at h
    · rename_i child created hfc
      split at h
      · simp at h
      · rename_i htc
        simp at h
        obtain ⟨ht, hk1⟩ := h
        unfold openpty at heq
        split at heq
        · simp at heq
        · simp at heq
          obtain ⟨hm, hs, hp, hk2⟩ := heq
          subst ht hk1 hm hp
          rw [← hk2]
          refine ⟨rfl, rfl, ?_⟩
          simp

/-- C1: for every rows and cols in [0, 65535], calling `set_winsize(rows,
cols)` on a live Terminal and then `get_winsize()` returns exactly
`(rows, cols)`. -/
theorem set_get_winsize_roundtrip (t : Terminal) (k k1 : Kernel)
    (rows cols : Nat) (hr : rows ≤ 65535) (hc : cols ≤ 65535)
    (h : t.set_winsize k rows cols = .ok k1) :
    t.get_winsize k1 = .ok (rows, cols) := by
  unfold Terminal.set_winsize ioctlSetWinsize at h
  unfold Terminal.get_winsize ioctlGetWinsize
  split at h
  · simp at h
  · simp at h
    subst h
    simp [make_winsize, Nat.mod_eq_of_lt (Nat.lt_succ_of_le hr),
      Nat.mod_eq_of_lt (Nat.lt_succ_of_le hc)]

/-- Witness for C1: `set_winsize(120, 72)` then `get_winsize()` on a
concrete opened terminal yields `(120, 72)`, as in the source's test. -/
theorem set_get_winsize_roundtrip_witness :
    120 ≤ 65535 ∧ 72 ≤ 65535 ∧
    Terminal.get_winsize tOpened kSet = .ok (120, 72) :=
  ⟨by decide, by decide,
    set_get_winsize_roundtrip tOpened kOpened kSet 120 72
      (by decide) (by decide) rfl⟩

/-- C6: for every freshly opened Terminal, `get_winsize()` returns `(0, 0)`
before any `set_winsize` call has been made on it. -/
theorem fresh_terminal_winsize_zero (os : OsBehavior) (k : Kernel)
    (shell : String) (t : Terminal) (k1 : Kernel)
    (h : (Terminal.new os k shell).1 = .ok (t, k1)) :
    t.get_winsize k1 = .ok (0, 0) := by
  obtain ⟨hr, _, hw⟩ := terminal_new_ok_shape os k shell t k1 h
  unfold Terminal.get_winsize ioctlGetWinsize
  rw [hr]
  simp [hw]

/-- Witness for C6: the concrete opened terminal reports `(0, 0)`. -/
theorem fresh_terminal_winsize_zero_witness :
    Terminal.get_winsize tOpened kOpened = .ok (0, 0) :=
  fresh_terminal_winsize_zero osOk kInit "/bin/sh" tOpened kOpened rfl

/-- C9: `get_default_shell()` returns `$SHELL` when it is set and
"/bin/bash" when it is unset. -/
theorem default_shell_env (env : String → Option String) :
    (∀ s, env "SHELL" = some s → get_default_shell env = s) ∧
    (env "SHELL" = none → get_default_shell env = "/bin/bash") := by
  constructor
  · intro s hs
    unfold get_default_shell
    rw [hs]
  · intro h
    unfold get_default_shell
    rw [h]

/-- Witness for C9: both the set and the unset case at concrete
environments. -/
theorem default_shell_env_witness :
    get_default_shell envZsh = "/bin/zsh" ∧
    get_default_shell envEmpty = "/bin/bash" :=
  ⟨(default_shell_env envZsh).1 "/bin/zsh" rfl,
    (default_shell_env envEmpty).2 rfl⟩

/-- C5: whenever the child reaches exec, its environment has
TERM=xterm-256color, COLORTERM=truecolor, TERM_PROGRAM=sshx, and
TERM_PROGRAM_VERSION removed, for every parent environment. -/
theorem exec_env_deterministic (os : OsBehavior) (shell : String)
    (slave_port : Nat) (st : ChildState)
    (hl : os.loginTtyResult = none) (he : os.execResult shell = none) :
    (execv_child os shell slave_port st).envVar "TERM"
        = some (some "xterm-256color") ∧
    (execv_child os shell slave_port st).envVar "COLORTERM"
        = some (some "truecolor") ∧
    (execv_child os shell slave_port st).envVar "TERM_PROGRAM"
        = some (some "sshx") ∧
    (execv_child os shell slave_port st).envVar "TERM_PROGRAM_VERSION"
        = some none := by
  unfold execv_child execvp
  rw [hl, he]
  exact ⟨rfl, rfl, rfl, rfl⟩

/-- Witness for C5: the environment at exec for a concrete dirty parent
environment. -/
theorem exec_env_deterministic_witness :
    (execv_child osOk "/bin/sh" 4 stInit).envVar "TERM"
        = some (some "xterm-256color") ∧
    (execv_child osOk "/bin/sh" 4 stInit).envVar "COLORTERM"
        = some (some "truecolor") ∧
    (execv_child osOk "/bin/sh" 4 stInit).envVar "TERM_PROGRAM"
        = some (some "sshx") ∧
    (execv_child osOk "/bin/sh" 4 stInit).envVar "TERM_PROGRAM_VERSION"
        = some none :=
  exec_env_deterministic osOk "/bin/sh" 4 stInit rfl rfl

/-- C7: the child never reaches exec with a file descriptor numbered 3 or
higher still open: every such descriptor is closed before `execvp`. -/
theorem no_fd_leak_at_exec (os : OsBehavior) (shell : String)
    (slave_port : Nat) (st : ChildState) :
    (execv_child os shell slave_port st).leaksFd = false := by
  unfold execv_child
  cases os.loginTtyResult with
  | some e => rfl
  | none =>
    unfold execvp
    cases os.execResult shell with
    | some e => rfl
    | none =>
      simp only [ExecvChildResult.leaksFd, remove_var, set_var, closefrom]
      rw [List.any_eq_false]
      intro fd hfd
      rw [List.mem_filter] at hfd
      simp only [decide_eq_true_eq] at hfd ⊢
      omega

/-- C2: if exec fails in the child branch, the child exits with status 1
(nonzero), and never returns to caller code as a replaced image or an
error value. -/
theorem child_exits_on_exec_failure (os : OsBehavior) (shell : String)
    (slave_port : Nat) (st : ChildState) (e : Errno)
    (h : execv_child os shell slave_port st = .errored e) :
    childBranch os shell slave_port st = .exited 1 ∧ (1 : Nat) ≠ 0 ∧
    ∀ prog args st2,
      childBranch os shell slave_port st ≠ .replaced prog args st2 := by
  have hb : childBranch os shell slave_port st = .exited 1 := by
    unfold childBranch
    rw [h]
  refine ⟨hb, by decide, ?_⟩
  intro prog args st2 hc
  rw [hb] at hc
  exact absurd hc (by simp)

/-- Witness for C2: a concrete child whose `execvp` fails with `ENOENT`
exits with status 1. -/
theorem child_exits_on_exec_failure_witness :
    childBranch osExecFail "/bin/sh" 4 stInit = .exited 1 ∧
    (1 : Nat) ≠ 0 ∧
    ∀ prog args st2,
      childBranch osExecFail "/bin/sh" 4 stInit ≠ .replaced prog args st2 :=
  child_exits_on_exec_failure osExecFail "/bin/sh" 4 stInit .ENOENT rfl

/-- C3: dropping a Terminal attempts exactly one SIGKILL delivery to the
stored child pid, the attempt on an already-exited child fails with ESRCH,
and the drop outcome ignores that failure (it is identical for every
process table). -/
theorem drop_kills_child_once (t : Terminal) (pt : ProcTable) :
    (Terminal.drop t pt).2 = [(t.child, Signal.SIGKILL)] ∧
    (pt.alive t.child = false →
      (kill pt t.child Signal.SIGKILL).1 = .error .ESRCH) ∧
    ∀ pt2 : ProcTable, (Terminal.drop t pt).1 = (Terminal.drop t pt2).1 := by
  refine ⟨?_, ?_, fun pt2 => rfl⟩
  · unfold Terminal.drop kill
    cases h : pt.alive t.child <;> simp [h]
  · intro h
    simp [kill, h]

/-- Witness for C3: dropping a concrete terminal whose child already exited
attempts one SIGKILL to pid 1000 and swallows the ESRCH failure. -/
theorem drop_kills_child_once_witness :
    (Terminal.drop tTerm ptDead).2 = [(1000, Signal.SIGKILL)] ∧
    (kill ptDead tTerm.child Signal.SIGKILL).1 = .error .ESRCH :=
  ⟨(drop_kills_child_once tTerm ptDead).1,
    (drop_kills_child_once tTerm ptDead).2.1 rfl⟩

/-- A single terminal operation never rebinds the terminal's fields. -/
theorem applyOp_preserves_terminal (op : TermOp) (tk : Terminal × Kernel) :
    (applyOp op tk).1 = tk.1 := by
  cases op with
  | setWinsize rows cols =>
    simp only [applyOp]
    split <;> rfl
  | getWinsize => rfl
  | pollRead => rfl
  | pollWrite => rfl
  | pollFlush => rfl
  | pollShutdown => rfl

/-- No sequence of terminal operations rebinds the terminal's fields. -/
theorem applyOps_preserves_terminal (ops : List TermOp)
    (tk : Terminal × Kernel) : (applyOps ops tk).1 = tk.1 := by
  induction ops generalizing tk with
  | nil => rfl
  | cons op rest ih =>
    unfold applyOps at ih ⊢
    simp only [List.foldl]
    rw [ih (applyOp op tk)]
    exact applyOp_preserves_terminal op tk

/-- C8: a successfully opened Terminal's read and write halves are distinct
handles referring to the same kernel PTY endpoint, and no sequence of
operations rebinds either half. -/
theorem master_halves_distinct_same_endpoint (os : OsBehavior) (k : Kernel)
    (shell : String) (t : Terminal) (k1 : Kernel)
    (h : (Terminal.new os k shell).1 = .ok (t, k1)) :
    t.master_read.handle ≠ t.master_write.handle ∧
    t.master_read.endpoint = t.master_write.endpoint ∧
    ∀ ops : List TermOp, (applyOps ops (t, k1)).1 = t := by
  obtain ⟨hr, hw, _⟩ := terminal_new_ok_shape os k shell t k1 h
  refine ⟨?_, ?_, fun ops => applyOps_preserves_terminal ops (t, k1)⟩
  · rw [hr, hw]
    simp
  · rw [hr, hw]

/-- Witness for C8: the halves of the concrete opened terminal are fds 3
and 5 over PTY 0, and a concrete operation list leaves them untouched. -/
theorem master_halves_distinct_witness :
    tOpened.master_read.handle ≠ tOpened.master_write.handle ∧
    tOpened.master_read.endpoint = tOpened.master_write.endpoint ∧
    (applyOps [TermOp.setWinsize 120 72, TermOp.getWinsize, TermOp.pollRead]
      (tOpened, kOpened)).1 = tOpened := by
  have h := master_halves_distinct_same_endpoint osOk kInit "/bin/sh"
    tOpened kOpened rfl
  exact ⟨h.1, h.2.1,
    h.2.2 [TermOp.setWinsize 120 72, TermOp.getWinsize, TermOp.pollRead]⟩

/-- C10: a shell string with an interior NUL byte makes `Terminal::new`
fail before any fork: no Terminal is returned and no child is created. -/
theorem nul_shell_rejected_before_fork (os : OsBehavior) (k : Kernel)
    (shell : String) (h : containsNul shell = true) :
    (∀ t k1, (Terminal.new os k shell).1 ≠ .ok (t, k1)) ∧
    (Terminal.new os k shell).2 = false := by
  unfold Terminal.new
  cases hop : openpty os k with
  | error e => exact ⟨fun t k1 hc => by simp at hc, rfl⟩
  | ok quad =>
    obtain ⟨master, slave, ptyId, k2⟩ := quad
    unfold fork_child
    rw [h]
    exact ⟨fun t k1 hc => by simp at hc, rfl⟩

/-- Witness for C10: a concrete NUL-containing shell string is rejected
with no child created. -/
theorem nul_shell_rejected_witness :
    (Terminal.new osOk kInit "sh\x00ell").1 ≠ .ok (tOpened, kOpened) ∧
    (Terminal.new osOk kInit "sh\x00ell").2 = false := by
  have h := nul_shell_rejected_before_fork osOk kInit "sh\x00ell" (by decide)
  exact ⟨h.1 tOpened kOpened, h.2⟩

end Sshx
